import Mathlib

/-!
Shallow embedding of the bsf particle-system accessors
(`Source/Foundation/bsfCore/Particles/BsParticleSystem.h`) and of the tiled
deferred lighting materials
(`Source/Plugins/bsfRenderBeast/Shading/BsTiledDeferred.cpp`), together with
theorems settling the specification claims about them.

Conventions of the embedding:
* Machine integers (`UINT32`, `INT32`) are modelled as `Nat` / `Int`; the
  quantities involved (light counts, screen dimensions, tile counts) are far
  below any overflow boundary and no claim concerns wraparound.
* `Math::ceilToInt(x / (float)T)` and `Math::divideAndRoundUp(x, T)` are both
  modelled as exact ceiling division on `Nat` (`ceilUDiv`); division of a
  `float` by a small constant followed by `ceil` agrees with exact ceiling
  division for every dimension below 2^24, which covers every realizable
  framebuffer size.
* `Color` components are modelled as `Rat`; the bitwise reinterpretation
  `*(INT32*)&clearValue.r` is modelled by an arbitrary function
  `bits : Rat → Int` passed as a parameter, since only WHICH component is
  placed in each slot matters to the claims, not the bit pattern itself.
* A fatal `assert` is modelled by returning `none`: `none` means the
  assertion fired before any binding or dispatch happened, `some` carries
  the parameter-buffer writes, binds and the dispatch that the call performs.
* Emitters and evolvers are identified by their pointer values, modelled as
  `Nat`; the unique-ownership containers become `List Nat`.
-/

namespace BsfSpec

/-- Ceiling division on naturals. Embeds both
`Math::ceilToInt(x / (float)T)` (exact for x below 2^24) and
`Math::divideAndRoundUp(x, T)` from the source. -/
def ceilUDiv (a b : Nat) : Nat := (a + b - 1) / b

/-- `LightType` enum: the three analytic light categories used by
`VisibleLightData`. -/
inductive LightType
  | Directional
  | Radial
  | Spot
deriving DecidableEq

/-- The slice of `VisibleLightData` read by
`TiledDeferredLightingMat::execute`: per-type totals of all visible lights
and of the unshadowed subset. -/
structure VisibleLightData where
  numLights : LightType → Nat
  numUnshadowedLights : LightType → Nat

/-- The two render-settings flags read by the lighting material. -/
structure RenderSettings where
  enableLighting : Bool
  enableShadows : Bool
deriving DecidableEq

/-- `viewRect` of the view target: the framebuffer rectangle dimensions. -/
structure ViewRect where
  width : Nat
  height : Nat
deriving DecidableEq

/-- The slice of `RendererView` read by the materials: the target rectangle
and the render settings. -/
structure RendererView where
  viewRect : ViewRect
  settings : RenderSettings
deriving DecidableEq

/-- Everything `TiledDeferredLightingMat::execute` writes into the `Params`
parameter block, plus the compute dispatch it issues.  `dispatched` records
that `RenderAPI::instance().dispatchCompute` is reached (it is unconditional
in the source). -/
structure TiledLightingOutput where
  gFramebufferSize : Int × Int
  gLightCounts : Int × Int × Int × Int
  gLightStrides : Int × Int
  numTilesX : Nat
  numTilesY : Nat
  dispatched : Bool
deriving DecidableEq

namespace TiledDeferredLightingMat

/-- `const UINT32 TiledDeferredLightingMat::TILE_SIZE = 16;` -/
def TILE_SIZE : Nat := 16

/-- Embeds `TiledDeferredLightingMat::execute`: the parameter-buffer writes
(framebuffer size, light counts, light strides) and the dispatch grid, as
a function of the view and the visible-light data. -/
def execute (view : RendererView) (lightData : VisibleLightData) :
    TiledLightingOutput :=
  let width := view.viewRect.width
  let height := view.viewRect.height
  if view.settings.enableLighting = false then
    { gFramebufferSize := ((width : Int), (height : Int))
      gLightCounts := (0, 0, 0, 0)
      gLightStrides := (0, 0)
      numTilesX := ceilUDiv width TILE_SIZE
      numTilesY := ceilUDiv height TILE_SIZE
      dispatched := true }
  else
    let u0 : Int := lightData.numUnshadowedLights LightType.Directional
    let u1 : Int := lightData.numUnshadowedLights LightType.Radial
    let u2 : Int := lightData.numUnshadowedLights LightType.Spot
    let c0 : Int := lightData.numLights LightType.Directional
    let c1 : Int := lightData.numLights LightType.Radial
    let c2 : Int := lightData.numLights LightType.Spot
    { gFramebufferSize := ((width : Int), (height : Int))
      gLightCounts :=
        if view.settings.enableShadows = false then
          (c0, c1, c2, c0 + c1 + c2)
        else
          (u0, u1, u2, u0 + u1 + u2)
      gLightStrides := (c0, c0 + c1)
      numTilesX := ceilUDiv width TILE_SIZE
      numTilesY := ceilUDiv height TILE_SIZE
      dispatched := true }

/-- Embeds `TiledDeferredLightingMat::getVariation(UINT32 msaaCount)`: the
switch over the sample count, returning the sample-count key of the
variant instance that is returned (`case 8` and `default` share a branch). -/
def getVariation (msaaCount : Nat) : Nat :=
  if msaaCount = 1 then 1
  else if msaaCount = 2 then 2
  else if msaaCount = 4 then 4
  else 8

end TiledDeferredLightingMat

/-- The slice of `TiledDeferredImageBasedLightingMat::execute` output the
claims concern: framebuffer size write and the dispatch grid. -/
structure TiledIBLOutput where
  gFramebufferSize : Int × Int
  numTilesX : Nat
  numTilesY : Nat
  dispatched : Bool
deriving DecidableEq

namespace TiledDeferredImageBasedLightingMat

/-- `const UINT32 TiledDeferredImageBasedLightingMat::TILE_SIZE = 32;` -/
def TILE_SIZE : Nat := 32

/-- Embeds the dimension/dispatch portion of
`TiledDeferredImageBasedLightingMat::execute`. -/
def execute (view : RendererView) : TiledIBLOutput :=
  let width := view.viewRect.width
  let height := view.viewRect.height
  { gFramebufferSize := ((width : Int), (height : Int))
    numTilesX := ceilUDiv width TILE_SIZE
    numTilesY := ceilUDiv height TILE_SIZE
    dispatched := true }

/-- Embeds `TiledDeferredImageBasedLightingMat::getVariation`: identical
switch shape to the direct-lighting variant selector. -/
def getVariation (msaaCount : Nat) : Nat :=
  if msaaCount = 1 then 1
  else if msaaCount = 2 then 2
  else if msaaCount = 4 then 4
  else 8

end TiledDeferredImageBasedLightingMat

/-- The slice of `PixelFormat` the claims need: whether
`PixelUtil::isCompressed` classifies it as a block-compressed format.
(`PixelUtil` itself is outside the provided sources; the classification is
kept abstract as a boolean attribute of the format.) -/
structure PixelFormat where
  isCompressed : Bool
deriving DecidableEq

/-- The slice of `TextureProperties` read by the materials under study. -/
structure TextureProperties where
  width : Nat
  height : Nat
  numArraySlices : Nat
  numSamples : Nat
  format : PixelFormat
deriving DecidableEq

/-- `Rect2(x, y, width, height)` with `Rat` standing in for `float`. -/
structure Rect2 where
  x : Rat
  y : Rat
  width : Rat
  height : Rat
deriving DecidableEq

namespace TextureArrayToMSAATexture

/-- Embeds `TextureArrayToMSAATexture::execute(inputArray, target)`:
the three `assert`s in source order, then the full-screen quad draw over
the target dimensions.  `none` means an assertion fired. -/
def execute (inputProps targetProps : TextureProperties) : Option Rect2 :=
  if inputProps.numArraySlices ≠ targetProps.numSamples then none
  else if inputProps.width ≠ targetProps.width then none
  else if inputProps.height ≠ targetProps.height then none
  else some ⟨0, 0, (targetProps.width : Rat), (targetProps.height : Rat)⟩

end TextureArrayToMSAATexture

/-- `Color` with `Rat` components standing in for `float`. -/
structure Color where
  r : Rat
  g : Rat
  b : Rat
  a : Rat
deriving DecidableEq

/-- Everything a `ClearLoadStoreMat::execute` overload writes into its
`Params` block plus the dispatch grid it issues. -/
structure ClearLoadStoreOutput where
  gSize : Int × Int
  gFloatClearVal : Rat × Rat × Rat × Rat
  gIntClearVal : Int × Int × Int × Int
  numGroupsX : Nat
  numGroupsY : Nat

namespace ClearLoadStoreMat

/-- Embeds the texture overload
`ClearLoadStoreMat::execute(target, clearValue, surface)`.
`numThreads`/`tileSize` stand for the `NUM_THREADS`/`TILE_SIZE` constants
(declared in the header, outside the provided sources); `bits` models the
per-component `*(INT32*)&` bit reinterpretation.  `none` means the
compressed-format assertion fired before any bind or dispatch.
The component selection mirrors the source exactly:
`Vector4(clearValue.r, clearValue.g, clearValue.a, clearValue.a)`. -/
def executeTexture (numThreads tileSize : Nat) (bits : Rat → Int)
    (props : TextureProperties) (clearValue : Color) :
    Option ClearLoadStoreOutput :=
  if props.format.isCompressed then none
  else
    let width := props.width
    let height := props.height
    some
      { gSize := ((width : Int), (height : Int))
        gFloatClearVal := (clearValue.r, clearValue.g, clearValue.a, clearValue.a)
        gIntClearVal :=
          (bits clearValue.r, bits clearValue.g, bits clearValue.a, bits clearValue.a)
        numGroupsX := ceilUDiv width (numThreads * tileSize)
        numGroupsY := ceilUDiv height (numThreads * tileSize) }

/-- Embeds the buffer overload
`ClearLoadStoreMat::execute(target, clearValue)`; `elementCount` is
`target->getProperties().getElementCount()`.  Same component selection as
the texture overload (`.r`, `.g`, `.a`, `.a`). -/
def executeBuffer (numThreads tileSize : Nat) (bits : Rat → Int)
    (elementCount : Nat) (clearValue : Color) : ClearLoadStoreOutput :=
  { gSize := ((elementCount : Int), 1)
    gFloatClearVal := (clearValue.r, clearValue.g, clearValue.a, clearValue.a)
    gIntClearVal :=
      (bits clearValue.r, bits clearValue.g, bits clearValue.a, bits clearValue.a)
    numGroupsX := ceilUDiv elementCount (numThreads * (tileSize * tileSize))
    numGroupsY := 1 }

end ClearLoadStoreMat

/-- The state of `bs::ParticleSystem` relevant to the accessor claims:
the two unique-ownership sequences, with each strategy object identified
by its pointer value. -/
structure ParticleSystem where
  emitters : List Nat
  evolvers : List Nat
deriving DecidableEq

namespace ParticleSystem

/-- `addEmitter`: `mEmitters.push_back(std::move(emitter))`. -/
def addEmitter (s : ParticleSystem) (e : Nat) : ParticleSystem :=
  { s with emitters := s.emitters ++ [e] }

/-- `addEvolver`: `mEvolvers.push_back(std::move(evolver))`. -/
def addEvolver (s : ParticleSystem) (v : Nat) : ParticleSystem :=
  { s with evolvers := s.evolvers ++ [v] }

/-- `getNumEmitters`: `mEmitters.size()`. -/
def getNumEmitters (s : ParticleSystem) : Nat := s.emitters.length

/-- `getNumEvolvers`: `mEvolvers.size()`. -/
def getNumEvolvers (s : ParticleSystem) : Nat := s.evolvers.length

/-- `getEmitter(idx)`: `nullptr` when `idx >= mEmitters.size()`, else the
raw pointer stored at position `idx`. -/
def getEmitter (s : ParticleSystem) (idx : Nat) : Option Nat :=
  if s.emitters.length ≤ idx then none
  else s.emitters[idx]?

/-- `getEvolver(idx)`: `nullptr` when `idx >= mEvolvers.size()`, else the
raw pointer stored at position `idx`. -/
def getEvolver (s : ParticleSystem) (idx : Nat) : Option Nat :=
  if s.evolvers.length ≤ idx then none
  else s.evolvers[idx]?

/-- Embeds `std::find_if` by pointer identity followed by `erase` of the
first match, the body of both `removeEmitter` and `removeEvolver`:
removes the first occurrence of `p`, leaves the list unchanged when `p`
is absent. -/
def eraseFirst (p : Nat) : List Nat → List Nat
  | [] => []
  | e :: rest => if e = p then rest else e :: eraseFirst p rest

/-- `removeEmitter(emitter)`. -/
def removeEmitter (s : ParticleSystem) (p : Nat) : ParticleSystem :=
  { s with emitters := eraseFirst p s.emitters }

/-- `removeEvolver(evolver)`. -/
def removeEvolver (s : ParticleSystem) (p : Nat) : ParticleSystem :=
  { s with evolvers := eraseFirst p s.evolvers }

end ParticleSystem

/-! ### Helper lemmas about the lighting dispatch -/

/-- The tile grid of the direct-lighting dispatch does not depend on the
light data or the settings, only on the view rectangle, and the dispatch is
always issued. -/
theorem lightingExec_tiles (view : RendererView) (d : VisibleLightData) :
    (TiledDeferredLightingMat.execute view d).numTilesX
        = ceilUDiv view.viewRect.width TiledDeferredLightingMat.TILE_SIZE
      ∧ (TiledDeferredLightingMat.execute view d).numTilesY
        = ceilUDiv view.viewRect.height TiledDeferredLightingMat.TILE_SIZE
      ∧ (TiledDeferredLightingMat.execute view d).dispatched = true := by
  unfold TiledDeferredLightingMat.execute
  by_cases h : view.settings.enableLighting = false <;> simp [h]

/-! ### Claim theorems: tiled deferred lighting -/

/-- C2: with lighting enabled, the light strides written to the parameter
buffer are the per-type prefix sums of the directional and radial all-light
counts, and the fourth component of the bound light counts is the sum of
its first three (the total). -/
theorem lighting_strides_are_prefix_sums (view : RendererView)
    (d : VisibleLightData) (h : view.settings.enableLighting = true) :
    (TiledDeferredLightingMat.execute view d).gLightStrides
        = ((d.numLights LightType.Directional : Int),
            (d.numLights LightType.Directional : Int)
              + (d.numLights LightType.Radial : Int))
      ∧ (TiledDeferredLightingMat.execute view d).gLightCounts.2.2.2
        = (TiledDeferredLightingMat.execute view d).gLightCounts.1
            + (TiledDeferredLightingMat.execute view d).gLightCounts.2.1
            + (TiledDeferredLightingMat.execute view d).gLightCounts.2.2.1 := by
  unfold TiledDeferredLightingMat.execute
  by_cases hs : view.settings.enableShadows = false <;> simp [h, hs]

/-- Witness for C2: directional=2, radial=3, spot=1 gives strides (2, 5)
and bound total count 6. -/
theorem lighting_strides_are_prefix_sums_witness :
    (TiledDeferredLightingMat.execute ⟨⟨1920, 1080⟩, ⟨true, false⟩⟩
        ⟨fun t => match t with
            | LightType.Directional => 2 | LightType.Radial => 3
            | LightType.Spot => 1,
          fun _ => 0⟩).gLightStrides = (2, 5)
      ∧ (TiledDeferredLightingMat.execute ⟨⟨1920, 1080⟩, ⟨true, false⟩⟩
        ⟨fun t => match t with
            | LightType.Directional => 2 | LightType.Radial => 3
            | LightType.Spot => 1,
          fun _ => 0⟩).gLightCounts.2.2.2 = 6 := by
  have h := lighting_strides_are_prefix_sums ⟨⟨1920, 1080⟩, ⟨true, false⟩⟩
    ⟨fun t => match t with
        | LightType.Directional => 2 | LightType.Radial => 3
        | LightType.Spot => 1,
      fun _ => 0⟩ rfl
  exact ⟨h.1.trans (by decide), h.2.trans (by decide)⟩

/-- C10: with lighting and shadows both enabled, the bound light counts are
the unshadowed per-type counts, yet the strides are still computed from the
all-light counts: the strides are independent of the shadow setting. -/
theorem lighting_strides_from_all_lights (view : RendererView)
    (d : VisibleLightData) (h : view.settings.enableLighting = true)
    (hs : view.settings.enableShadows = true) :
    (TiledDeferredLightingMat.execute view d).gLightCounts
        = ((d.numUnshadowedLights LightType.Directional : Int),
            (d.numUnshadowedLights LightType.Radial : Int),
            (d.numUnshadowedLights LightType.Spot : Int),
            (d.numUnshadowedLights LightType.Directional : Int)
              + (d.numUnshadowedLights LightType.Radial : Int)
              + (d.numUnshadowedLights LightType.Spot : Int))
      ∧ (TiledDeferredLightingMat.execute view d).gLightStrides
        = ((d.numLights LightType.Directional : Int),
            (d.numLights LightType.Directional : Int)
              + (d.numLights LightType.Radial : Int)) := by
  unfold TiledDeferredLightingMat.execute
  simp [h, hs]

/-- Witness for C10: all-light counts (2, 3, 1) and unshadowed counts
(1, 1, 0) with shadows enabled bind counts (1, 1, 0, 2) but strides (2, 5). -/
theorem lighting_strides_from_all_lights_witness :
    (TiledDeferredLightingMat.execute ⟨⟨1920, 1080⟩, ⟨true, true⟩⟩
        ⟨fun t => match t with
            | LightType.Directional => 2 | LightType.Radial => 3
            | LightType.Spot => 1,
          fun t => match t with
            | LightType.Directional => 1 | LightType.Radial => 1
            | LightType.Spot => 0⟩).gLightCounts = (1, 1, 0, 2)
      ∧ (TiledDeferredLightingMat.execute ⟨⟨1920, 1080⟩, ⟨true, true⟩⟩
        ⟨fun t => match t with
            | LightType.Directional => 2 | LightType.Radial => 3
            | LightType.Spot => 1,
          fun t => match t with
            | LightType.Directional => 1 | LightType.Radial => 1
            | LightType.Spot => 0⟩).gLightStrides = (2, 5) := by
  have h := lighting_strides_from_all_lights ⟨⟨1920, 1080⟩, ⟨true, true⟩⟩
    ⟨fun t => match t with
        | LightType.Directional => 2 | LightType.Radial => 3
        | LightType.Spot => 1,
      fun t => match t with
        | LightType.Directional => 1 | LightType.Radial => 1
        | LightType.Spot => 0⟩ rfl rfl
  exact ⟨h.1.trans (by decide), h.2.trans (by decide)⟩

/-- C3: with lighting disabled the material binds all-zero light counts and
strides, and still issues the dispatch with the same tile grid as any
(possibly lighting-enabled) view over the same rectangle. -/
theorem lighting_disabled_zeros_still_dispatch (view viewOn : RendererView)
    (d dOn : VisibleLightData)
    (h : view.settings.enableLighting = false)
    (hrect : viewOn.viewRect = view.viewRect) :
    (TiledDeferredLightingMat.execute view d).gLightCounts = (0, 0, 0, 0)
      ∧ (TiledDeferredLightingMat.execute view d).gLightStrides = (0, 0)
      ∧ (TiledDeferredLightingMat.execute view d).dispatched = true
      ∧ (TiledDeferredLightingMat.execute view d).numTilesX
        = ceilUDiv view.viewRect.width TiledDeferredLightingMat.TILE_SIZE
      ∧ (TiledDeferredLightingMat.execute view d).numTilesY
        = ceilUDiv view.viewRect.height TiledDeferredLightingMat.TILE_SIZE
      ∧ (TiledDeferredLightingMat.execute view d).numTilesX
        = (TiledDeferredLightingMat.execute viewOn dOn).numTilesX
      ∧ (TiledDeferredLightingMat.execute view d).numTilesY
        = (TiledDeferredLightingMat.execute viewOn dOn).numTilesY := by
  obtain ⟨hx, hy, hd⟩ := lightingExec_tiles view d
  obtain ⟨hx2, hy2, _⟩ := lightingExec_tiles viewOn dOn
  refine ⟨?_, ?_, hd, hx, hy, ?_, ?_⟩
  · unfold TiledDeferredLightingMat.execute
    simp [h]
  · unfold TiledDeferredLightingMat.execute
    simp [h]
  · rw [hx, hx2, hrect]
  · rw [hy, hy2, hrect]

/-- Witness for C3: a lighting-disabled 100 x 50 view binds zeros and
dispatches the same 7 x 4 grid as a lighting-enabled view of the same
rectangle. -/
theorem lighting_disabled_zeros_still_dispatch_witness :
    (TiledDeferredLightingMat.execute ⟨⟨100, 50⟩, ⟨false, false⟩⟩
        ⟨fun _ => 5, fun _ => 4⟩).gLightCounts = (0, 0, 0, 0)
      ∧ (TiledDeferredLightingMat.execute ⟨⟨100, 50⟩, ⟨false, false⟩⟩
        ⟨fun _ => 5, fun _ => 4⟩).gLightStrides = (0, 0)
      ∧ (TiledDeferredLightingMat.execute ⟨⟨100, 50⟩, ⟨false, false⟩⟩
        ⟨fun _ => 5, fun _ => 4⟩).dispatched = true
      ∧ (TiledDeferredLightingMat.execute ⟨⟨100, 50⟩, ⟨false, false⟩⟩
        ⟨fun _ => 5, fun _ => 4⟩).numTilesX
        = (TiledDeferredLightingMat.execute ⟨⟨100, 50⟩, ⟨true, true⟩⟩
        ⟨fun _ => 5, fun _ => 4⟩).numTilesX := by
  have h := lighting_disabled_zeros_still_dispatch
    ⟨⟨100, 50⟩, ⟨false, false⟩⟩ ⟨⟨100, 50⟩, ⟨true, true⟩⟩
    ⟨fun _ => 5, fun _ => 4⟩ ⟨fun _ => 5, fun _ => 4⟩ rfl rfl
  exact ⟨h.1, h.2.1, h.2.2.1, h.2.2.2.2.2.1⟩

/-- C4: the direct-lighting dispatch grid is ceil(w/16) x ceil(h/16), the
image-based-lighting grid is ceil(w/32) x ceil(h/32), and at 1920 x 1080
the TILE_SIZE=16 grid is 120 x 68. -/
theorem dispatch_grid_sizes (view : RendererView) (d : VisibleLightData) :
    (TiledDeferredLightingMat.execute view d).numTilesX
        = ceilUDiv view.viewRect.width 16
      ∧ (TiledDeferredLightingMat.execute view d).numTilesY
        = ceilUDiv view.viewRect.height 16
      ∧ (TiledDeferredImageBasedLightingMat.execute view).numTilesX
        = ceilUDiv view.viewRect.width 32
      ∧ (TiledDeferredImageBasedLightingMat.execute view).numTilesY
        = ceilUDiv view.viewRect.height 32
      ∧ (TiledDeferredLightingMat.execute ⟨⟨1920, 1080⟩, ⟨true, false⟩⟩
          ⟨fun _ => 0, fun _ => 0⟩).numTilesX = 120
      ∧ (TiledDeferredLightingMat.execute ⟨⟨1920, 1080⟩, ⟨true, false⟩⟩
          ⟨fun _ => 0, fun _ => 0⟩).numTilesY = 68 := by
  obtain ⟨hx, hy, _⟩ := lightingExec_tiles view d
  obtain ⟨hx2, hy2, _⟩ :=
    lightingExec_tiles ⟨⟨1920, 1080⟩, ⟨true, false⟩⟩ ⟨fun _ => 0, fun _ => 0⟩
  exact ⟨hx, hy, rfl, rfl, hx2.trans (by decide), hy2.trans (by decide)⟩

/-- C5: every sample count other than 1, 2 and 4 selects the same variant
as sample count 8 (the 8-sample instance), for both lighting materials;
variant selection is total. -/
theorem getVariation_fallback_to_8 (n : Nat)
    (h1 : n ≠ 1) (h2 : n ≠ 2) (h4 : n ≠ 4) :
    TiledDeferredLightingMat.getVariation n
        = TiledDeferredLightingMat.getVariation 8
      ∧ TiledDeferredImageBasedLightingMat.getVariation n
        = TiledDeferredImageBasedLightingMat.getVariation 8
      ∧ TiledDeferredLightingMat.getVariation n = 8
      ∧ TiledDeferredImageBasedLightingMat.getVariation n = 8 := by
  simp [TiledDeferredLightingMat.getVariation,
    TiledDeferredImageBasedLightingMat.getVariation, h1, h2, h4]

/-- Witness for C5: sample count 16 selects the 8-sample variant. -/
theorem getVariation_fallback_to_8_witness :
    TiledDeferredLightingMat.getVariation 16 = 8
      ∧ TiledDeferredImageBasedLightingMat.getVariation 16 = 8 := by
  have h := getVariation_fallback_to_8 16 (by decide) (by decide) (by decide)
  exact ⟨h.2.2.1, h.2.2.2⟩

/-! ### Claim theorems: resolve and clear materials -/

/-- C8: the array-to-MSAA resolve runs (no assertion fires) exactly when the
input array slice count equals the target sample count and the dimensions
match; any violation stops the call at an assertion. -/
theorem textureArrayToMSAA_preconditions (i t : TextureProperties) :
    (TextureArrayToMSAATexture.execute i t).isSome
      ↔ (i.numArraySlices = t.numSamples
          ∧ i.width = t.width ∧ i.height = t.height) := by
  unfold TextureArrayToMSAATexture.execute
  by_cases h1 : i.numArraySlices = t.numSamples <;>
    by_cases h2 : i.width = t.width <;>
      by_cases h3 : i.height = t.height <;> simp [h1, h2, h3]

/-- C9: the texture overload of the clear material fires its assertion
(before any bind or dispatch) exactly when the pixel format is compressed;
non-compressed formats always proceed. -/
theorem clearLoadStore_compressed_rejected (numThreads tileSize : Nat)
    (bits : Rat → Int) (props : TextureProperties) (c : Color) :
    ClearLoadStoreMat.executeTexture numThreads tileSize bits props c = none
      ↔ props.format.isCompressed = true := by
  unfold ClearLoadStoreMat.executeTexture
  by_cases h : props.format.isCompressed <;> simp [h]

/-- C1 (code bug): both overloads write the ALPHA component into the third
(blue) slot of the clear value: for clear color (r, g, b, a) = (0, 0, 1, 0)
the float clear value written is (0, 0, 0, 0), not (0, 0, 1, 0), and the
reinterpreted integer form drops the blue component in the same way. -/
theorem clearLoadStore_blue_slot_gets_alpha :
    (ClearLoadStoreMat.executeTexture 8 4 (fun _ => 0)
        ⟨64, 64, 1, 1, ⟨false⟩⟩ ⟨0, 0, 1, 0⟩).map
          (fun o => o.gFloatClearVal) = some (0, 0, 0, 0)
      ∧ (ClearLoadStoreMat.executeBuffer 8 4 (fun _ => 0) 16
          ⟨0, 0, 1, 0⟩).gFloatClearVal = (0, 0, 0, 0)
      ∧ (ClearLoadStoreMat.executeBuffer 8 4 (fun q => if q = 1 then 42 else 7)
          16 ⟨0, 0, 1, 0⟩).gIntClearVal = (7, 7, 7, 7)
      ∧ ((0 : Rat), (0 : Rat), (0 : Rat), (0 : Rat)) ≠ ((0 : Rat), 0, 1, 0) :=
  ⟨rfl, rfl, by decide, by decide⟩

/-! ### Helper lemmas about eraseFirst -/

/-- When the pointer is absent, `find_if` finds nothing and the erase is a
no-op. -/
theorem eraseFirst_of_not_mem {p : Nat} {l : List Nat} (h : p ∉ l) :
    ParticleSystem.eraseFirst p l = l := by
  induction l with
  | nil => rfl
  | cons e rest ih =>
    simp only [List.mem_cons, not_or] at h
    rw [ParticleSystem.eraseFirst, if_neg (fun he => h.1 he.symm), ih h.2]

/-- On a duplicate-free list (the unique-ownership invariant), erasing the
first occurrence of `p` leaves no occurrence of `p`. -/
theorem not_mem_eraseFirst_self {p : Nat} {l : List Nat} (h : l.Nodup) :
    p ∉ ParticleSystem.eraseFirst p l := by
  induction l with
  | nil => simp [ParticleSystem.eraseFirst]
  | cons e rest ih =>
    rw [List.nodup_cons] at h
    by_cases he : e = p
    · subst he
      rw [ParticleSystem.eraseFirst, if_pos rfl]
      exact h.1
    · rw [ParticleSystem.eraseFirst, if_neg he]
      simp only [List.mem_cons, not_or]
      exact ⟨fun hpe => he hpe.symm, ih h.2⟩

/-- Erasing removes exactly the first occurrence: splitting the list at the
first match, the result is the concatenation of the two sides. -/
theorem eraseFirst_first_occurrence {p : Nat} {pre post : List Nat}
    (h : p ∉ pre) :
    ParticleSystem.eraseFirst p (pre ++ p :: post) = pre ++ post := by
  induction pre with
  | nil => rw [List.nil_append, ParticleSystem.eraseFirst, if_pos rfl, List.nil_append]
  | cons e rest ih =>
    simp only [List.mem_cons, not_or] at h
    rw [List.cons_append, ParticleSystem.eraseFirst,
      if_neg (fun he => h.1 he.symm), ih h.2, List.cons_append]

/-! ### Claim theorems: particle system accessors -/

/-- C6: `getEmitter`/`getEvolver` return null for every out-of-range index
and the element stored at sequential position `idx` otherwise; the position
just past the current end is filled by the most recently added instance. -/
theorem getEmitter_getEvolver_bounds (s : ParticleSystem) (idx e v : Nat) :
    (s.getNumEmitters ≤ idx → s.getEmitter idx = none)
      ∧ (∀ h : idx < s.getNumEmitters,
          s.getEmitter idx = some (s.emitters.get ⟨idx, h⟩))
      ∧ ((s.addEmitter e).getEmitter idx
          = if idx = s.getNumEmitters then some e else s.getEmitter idx)
      ∧ (s.getNumEvolvers ≤ idx → s.getEvolver idx = none)
      ∧ (∀ h : idx < s.getNumEvolvers,
          s.getEvolver idx = some (s.evolvers.get ⟨idx, h⟩))
      ∧ ((s.addEvolver v).getEvolver idx
          = if idx = s.getNumEvolvers then some v else s.getEvolver idx) := by
  have grow : ∀ (l : List Nat) (x : Nat),
      (if (l ++ [x]).length ≤ idx then none else (l ++ [x])[idx]?)
        = if idx = l.length then some x
          else if l.length ≤ idx then none else l[idx]? := by
    intro l x
    rcases Nat.lt_trichotomy idx l.length with hlt | heq | hgt
    · rw [if_neg (by simp; omega), if_neg (by omega), if_neg (by omega),
        List.getElem?_append_left hlt]
    · subst heq
      rw [if_neg (by simp), if_pos rfl]
      simp
    · rw [if_pos (by simp; omega), if_neg (by omega), if_pos (by omega)]
  refine ⟨fun h => ?_, fun h => ?_, ?_, fun h => ?_, fun h => ?_, ?_⟩
  · rw [ParticleSystem.getEmitter,
      if_pos (show s.emitters.length ≤ idx from h)]
  · rw [ParticleSystem.getEmitter,
      if_neg (Nat.not_le.mpr (show idx < s.emitters.length from h)),
      List.getElem?_eq_getElem (show idx < s.emitters.length from h),
      List.get_eq_getElem]
  · rw [ParticleSystem.getEmitter, ParticleSystem.getEmitter]
    exact grow s.emitters e
  · rw [ParticleSystem.getEvolver,
      if_pos (show s.evolvers.length ≤ idx from h)]
  · rw [ParticleSystem.getEvolver,
      if_neg (Nat.not_le.mpr (show idx < s.evolvers.length from h)),
      List.getElem?_eq_getElem (show idx < s.evolvers.length from h),
      List.get_eq_getElem]
  · rw [ParticleSystem.getEvolver, ParticleSystem.getEvolver]
    exact grow s.evolvers v

/-- Witness for C6: on a system with emitters [10, 20] and evolver [30],
index 5 yields null, index 1 yields the second emitter, index 0 yields the
evolver, and after adding emitter 40 index 2 yields it. -/
theorem getEmitter_getEvolver_bounds_witness :
    (ParticleSystem.mk [10, 20] [30]).getEmitter 5 = none
      ∧ (ParticleSystem.mk [10, 20] [30]).getEmitter 1 = some 20
      ∧ (ParticleSystem.mk [10, 20] [30]).getEvolver 0 = some 30
      ∧ ((ParticleSystem.mk [10, 20] [30]).addEmitter 40).getEmitter 2
        = some 40 := by
  have h5 := getEmitter_getEvolver_bounds (ParticleSystem.mk [10, 20] [30]) 5 40 50
  have h1 := getEmitter_getEvolver_bounds (ParticleSystem.mk [10, 20] [30]) 1 40 50
  have h0 := getEmitter_getEvolver_bounds (ParticleSystem.mk [10, 20] [30]) 0 40 50
  have h2 := getEmitter_getEvolver_bounds (ParticleSystem.mk [10, 20] [30]) 2 40 50
  exact ⟨h5.1 (by decide),
    (h1.2.1 (by decide)).trans (by decide),
    (h0.2.2.2.2.1 (by decide)).trans (by decide),
    h2.2.2.1.trans (by decide)⟩

/-- C7: `removeEmitter`/`removeEvolver` remove exactly the first element
whose pointer matches and are a no-op when none matches; under the
unique-ownership invariant (no duplicate pointers) removing the same
pointer twice equals removing it once. -/
theorem remove_first_match_noop_idempotent (s : ParticleSystem) (p : Nat)
    (pre post : List Nat) :
    (p ∉ s.emitters → s.removeEmitter p = s)
      ∧ (p ∉ s.evolvers → s.removeEvolver p = s)
      ∧ (s.emitters = pre ++ p :: post → p ∉ pre →
          (s.removeEmitter p).emitters = pre ++ post)
      ∧ (s.evolvers = pre ++ p :: post → p ∉ pre →
          (s.removeEvolver p).evolvers = pre ++ post)
      ∧ (s.emitters.Nodup →
          (s.removeEmitter p).removeEmitter p = s.removeEmitter p)
      ∧ (s.evolvers.Nodup →
          (s.removeEvolver p).removeEvolver p = s.removeEvolver p) := by
  refine ⟨fun h => ?_, fun h => ?_, fun hsplit hpre => ?_,
    fun hsplit hpre => ?_, fun hnd => ?_, fun hnd => ?_⟩
  · simp only [ParticleSystem.removeEmitter]
    rw [eraseFirst_of_not_mem h]
  · simp only [ParticleSystem.removeEvolver]
    rw [eraseFirst_of_not_mem h]
  · simp only [ParticleSystem.removeEmitter]
    rw [hsplit, eraseFirst_first_occurrence hpre]
  · simp only [ParticleSystem.removeEvolver]
    rw [hsplit, eraseFirst_first_occurrence hpre]
  · simp only [ParticleSystem.removeEmitter]
    rw [eraseFirst_of_not_mem (not_mem_eraseFirst_self hnd)]
  · simp only [ParticleSystem.removeEvolver]
    rw [eraseFirst_of_not_mem (not_mem_eraseFirst_self hnd)]

/-- Witness for C7: removing an absent pointer leaves [10, 20, 30] intact,
removing 20 leaves [10, 30], and removing 20 a second time changes
nothing. -/
theorem remove_first_match_noop_idempotent_witness :
    (ParticleSystem.mk [10, 20, 30] []).removeEmitter 99
        = ParticleSystem.mk [10, 20, 30] []
      ∧ ((ParticleSystem.mk [10, 20, 30] []).removeEmitter 20).emitters
        = [10] ++ [30]
      ∧ ((ParticleSystem.mk [10, 20, 30] []).removeEmitter 20).removeEmitter 20
        = (ParticleSystem.mk [10, 20, 30] []).removeEmitter 20 := by
  have h99 := remove_first_match_noop_idempotent
    (ParticleSystem.mk [10, 20, 30] []) 99 [] []
  have h20 := remove_first_match_noop_idempotent
    (ParticleSystem.mk [10, 20, 30] []) 20 [10] [30]
  exact ⟨h99.1 (by decide), h20.2.2.1 (by decide) (by decide),
    h20.2.2.2.2.1 (by decide)⟩

end BsfSpec
